import Mathlib

/-!
Verification of `src/bosh-google-cpi/google/client/google_client.go`
(package `client` of the bosh-google-cpi release) against its
natural-language specification.

The file shallowly embeds the package: `NewGoogleClient` and the accessor
methods of `GoogleClient` are translated from the Go source, with the
external collaborators (OAuth JWT parsing, default-credential discovery,
the generated service constructors) supplied as an explicit `Ext` record
and the process environment threaded as explicit state. The retrying
round-trip loop of `RetryTransport`, whose defining file is not among the
sources at hand, is modelled from the specification (§4.1).
-/

namespace BoshGoogleCPI

/-- Outcome of one HTTP attempt at the transport boundary: either an HTTP
response carrying a status code, or a transport-level error. -/
inductive Outcome where
  | resp (status : Nat)
  | err (msg : String)
deriving DecidableEq, Repr

/-- Modelled from the spec: the retry classification of the
`RetryTransport` round-trip loop (the file defining `RetryTransport`'s
method set is missing from the sources; spec §4.1 fixes the algorithm).
A transport-level error, a 5xx status, or a 429 status is retryable;
every other outcome is terminal. -/
def retryable : Outcome → Bool
  | .err _ => true
  | .resp s => (500 ≤ s && s ≤ 599) || s == 429

/-- Modelled from the spec: the retry loop of `RetryTransport.RoundTrip`
resumed at attempt number `attempt` with the given number of retries still
allowed. `base` maps an attempt index to the base transport's outcome for
that attempt. Returns the final outcome together with the total number of
attempts performed (attempts are numbered from 0). -/
def roundTripFrom (base : Nat → Outcome) (attempt : Nat) : Nat → Outcome × Nat
  | 0 => (base attempt, attempt + 1)
  | n + 1 =>
    if retryable (base attempt) then roundTripFrom base (attempt + 1) n
    else (base attempt, attempt + 1)

/-- Modelled from the spec: `RetryTransport.RoundTrip` performs attempt 0
and retries retryable outcomes while the attempt number is below
`MaxRetries` (spec §4.1 steps 2-5). Returns the final outcome and the
number of attempts made against the base transport. -/
def RoundTrip (base : Nat → Outcome) (maxRetries : Nat) : Outcome × Nat :=
  roundTripFrom base 0 maxRetries

theorem roundTripFrom_spec (base : Nat → Outcome) :
    ∀ r a : Nat,
      (roundTripFrom base a r).2 ≤ a + r + 1 ∧
      a + 1 ≤ (roundTripFrom base a r).2 ∧
      (roundTripFrom base a r).1 = base ((roundTripFrom base a r).2 - 1) := by
  intro r
  induction r with
  | zero =>
    intro a
    simp [roundTripFrom]
  | succ n ih =>
    intro a
    by_cases hretry : retryable (base a)
    · have h := ih (a + 1)
      simp only [roundTripFrom, hretry, if_true]
      exact ⟨by omega, by omega, h.2.2⟩
    · simp [roundTripFrom, hretry]

/-- C2: for every logical request through the retry transport, `RoundTrip`
performs at most `maxRetries + 1` attempts against the base transport, and
the outcome it returns is exactly the outcome of the most recent attempt
(the last attempt made), never a synthesized retries-exhausted error. -/
theorem roundTrip_attempt_bound_and_last_outcome (base : Nat → Outcome) (maxRetries : Nat) :
    (RoundTrip base maxRetries).2 ≤ maxRetries + 1 ∧
    1 ≤ (RoundTrip base maxRetries).2 ∧
    (RoundTrip base maxRetries).1 = base ((RoundTrip base maxRetries).2 - 1) := by
  have h := roundTripFrom_spec base maxRetries 0
  exact ⟨by simpa [RoundTrip] using h.1, by simpa [RoundTrip] using h.2.1,
    by simpa [RoundTrip] using h.2.2⟩

/-- An HTTP transport at this boundary: either an opaque base transport
(identified by an id) or a `RetryTransport` value wrapping a base transport
together with its `MaxRetries` count and `FirstRetrySleep` duration in
nanoseconds (Go `time.Duration` units). -/
inductive Transport where
  | base (id : Nat)
  | retry (Base : Transport) (MaxRetries : Nat) (FirstRetrySleep : Nat)
deriving DecidableEq, Repr

/-- An `http.Client` at this boundary: the only part of it the package
touches is its `Transport` field. -/
structure HttpClient where
  transport : Transport
deriving DecidableEq, Repr

/-- A JWT configuration as returned by `oauthgoogle.JWTConfigFromJSON`;
the only use the package makes of it is `Client`, the authenticated HTTP
client it yields via `jwtConf.Client(oauth2.NoContext)`. -/
structure JwtConf where
  Client : HttpClient
deriving DecidableEq, Repr

/-- The process environment as touched through `os.Getenv`/`os.Setenv`,
with the most recent setting first. -/
abbrev Env := List (String × String)

/-- `os.Getenv`: the value of the variable, or the empty string when it is
unset (Go semantics). -/
def getEnv (env : Env) (k : String) : String :=
  match env.find? (fun p => p.1 == k) with
  | some p => p.2
  | none => ""

/-- `os.Setenv`: record the new binding, shadowing any older one. -/
def setEnv (env : Env) (k v : String) : Env := (k, v) :: env

/-- `bosherr.WrapError(err, msg)`: an error wrapping a cause with a
context message. -/
structure WrappedError where
  msg : String
  cause : String
deriving DecidableEq, Repr

/-- `compute.ComputeScope` from the generated compute bindings. -/
def ComputeScope : String := "https://www.googleapis.com/auth/compute"

/-- `storage.DevstorageFullControlScope` from the generated storage
bindings. -/
def DevstorageFullControlScope : String :=
  "https://www.googleapis.com/auth/devstorage.full_control"

/-- `computeScope` constant of the package. -/
def computeScope : String := ComputeScope

/-- `storageScope` constant of the package. -/
def storageScope : String := DevstorageFullControlScope

/-- `metadataHost` constant: the metadata host must be an IP address, not
an FQDN. -/
def metadataHost : String := "169.254.169.254"

/-- `retries` constant: configuration for the retrier. -/
def retries : Nat := 12

/-- Go `time.Millisecond`, in nanoseconds. -/
def Millisecond : Nat := 1000000

/-- `firstRetrySleep` constant: `50 * time.Millisecond`. -/
def firstRetrySleep : Nat := 50 * Millisecond

/-- The slice of `config.Config` consumed by `NewGoogleClient`. The
`config` package itself is not among the sources at hand; its fields are
taken from their uses in `google_client.go`, and `userAgent` backs
`GetUserAgent` (modelled from the spec: the user agent string is
externally supplied configuration). -/
structure Config where
  Project : String
  DefaultRootDiskSizeGb : Int
  DefaultRootDiskType : String
  JSONKey : String
  userAgent : String
deriving DecidableEq, Repr

/-- Modelled from the spec: `config.GetUserAgent` returns the
caller-supplied user agent identification string carried in the
configuration (the `config` package is not among the sources at hand). -/
def Config.GetUserAgent (c : Config) : String := c.userAgent

/-- The Go zero value `config.Config{}` restricted to the fields used. -/
def Config.zero : Config := ⟨"", 0, "", "", ""⟩

/-- A generated API service handle (`compute.Service`,
`computebeta.Service`, `storage.Service`) at this boundary: the HTTP
client it was built over and its `UserAgent` field. -/
structure APIService where
  client : HttpClient
  UserAgent : String
deriving DecidableEq, Repr

/-- The `GoogleClient` struct. The `logger` field carries no observable
state at this boundary and is omitted; the three service pointers are
`Option` values with `none` for Go's nil. -/
structure GoogleClient where
  Config : Config
  computeService : Option APIService
  computeServiceB : Option APIService
  storageService : Option APIService
deriving DecidableEq, Repr

/-- The Go zero value `GoogleClient{}` returned on every failure path. -/
def GoogleClient.zero : GoogleClient := ⟨Config.zero, none, none, none⟩

/-- The external collaborators of `NewGoogleClient` at their boundary:
`oauthgoogle.JWTConfigFromJSON` (key material and scope to a JWT config,
may fail), `oauthgoogle.DefaultClient` (ambient default-credential
discovery, which may read the environment, may fail), and the three
generated service constructors `compute.New`, `computebeta.New`,
`storage.New`, each of which may fail with an error. -/
structure Ext where
  JWTConfigFromJSON : String → String → Except String JwtConf
  DefaultClient : Env → String → Except String HttpClient
  computeNew : HttpClient → Option String
  computeBetaNew : HttpClient → Option String
  storageNew : HttpClient → Option String

/-- The environment after the metadata-host fixup of lines 61-63: when
`GCE_METADATA_HOST` is unset it is set to `metadataHost`, otherwise the
environment is untouched. -/
def metadataEnv (env : Env) : Env :=
  if getEnv env "GCE_METADATA_HOST" = "" then
    setEnv env "GCE_METADATA_HOST" metadataHost
  else env

/-- The credential-acquisition block of `NewGoogleClient` (lines 48-73):
with a non-empty JSON key, both scoped clients come from the OAuth2 JWT
flow; otherwise the metadata host is fixed up and both clients come from
default-credential discovery. Returns the Go-style outcome (the two
clients, or the wrapped error) together with the environment after the
block. -/
def acquireCredentials (ext : Ext) (config : Config) (env : Env) :
    Except WrappedError (HttpClient × HttpClient) × Env :=
  if config.JSONKey ≠ "" then
    (match ext.JWTConfigFromJSON config.JSONKey computeScope with
     | .error e => .error ⟨"Reading Google JSON Key", e⟩
     | .ok computeJwtConf =>
       match ext.JWTConfigFromJSON config.JSONKey storageScope with
       | .error e => .error ⟨"Reading Google JSON Key", e⟩
       | .ok storageJwtConf => .ok (computeJwtConf.Client, storageJwtConf.Client),
     env)
  else
    let env1 := metadataEnv env
    (match ext.DefaultClient env1 computeScope with
     | .error e => .error ⟨"Creating a Google default client", e⟩
     | .ok computeClient =>
       match ext.DefaultClient env1 storageScope with
       | .error e => .error ⟨"Creating a Google default client", e⟩
       | .ok storageClient => .ok (computeClient, storageClient),
     env1)

/-- The service-construction block of `NewGoogleClient` (lines 75-115):
install a `RetryTransport` on the compute client, build the compute v1 and
beta services over that same client, then install a `RetryTransport` on
the storage client and build the storage service; each service gets the
user agent. Any constructor failure returns the zero client with the
wrapped error. -/
def buildServices (ext : Ext) (config : Config)
    (computeClient0 storageClient0 : HttpClient) :
    GoogleClient × Option WrappedError :=
  let userAgent := config.GetUserAgent
  let computeClient : HttpClient :=
    ⟨Transport.retry computeClient0.transport retries firstRetrySleep⟩
  match ext.computeNew computeClient with
  | some e => (GoogleClient.zero, some ⟨"Creating a Google Compute Service client", e⟩)
  | none =>
    let computeService : APIService := ⟨computeClient, userAgent⟩
    match ext.computeBetaNew computeClient with
    | some e => (GoogleClient.zero, some ⟨"Creating a Google Compute Service client", e⟩)
    | none =>
      let computeServiceB : APIService := ⟨computeClient, userAgent⟩
      let storageClient : HttpClient :=
        ⟨Transport.retry storageClient0.transport retries firstRetrySleep⟩
      match ext.storageNew storageClient with
      | some e => (GoogleClient.zero, some ⟨"Creating a Google Storage Service client", e⟩)
      | none =>
        let storageService : APIService := ⟨storageClient, userAgent⟩
        (⟨config, some computeService, some computeServiceB, some storageService⟩, none)

/-- `NewGoogleClient` from `google_client.go`, with the external
collaborators supplied as `ext` and the process environment threaded
explicitly. Returns the Go-style pair (client, error) together with the
environment after the call. -/
def NewGoogleClient (ext : Ext) (config : Config) (env : Env) :
    (GoogleClient × Option WrappedError) × Env :=
  match acquireCredentials ext config env with
  | (.error e, envOut) => ((GoogleClient.zero, some e), envOut)
  | (.ok (computeClient, storageClient), envOut) =>
    (buildServices ext config computeClient storageClient, envOut)

/-- `func (c GoogleClient) Project() string`. -/
def GoogleClient.Project (c : GoogleClient) : String := c.Config.Project

/-- `func (c GoogleClient) DefaultRootDiskSizeGb() int`. -/
def GoogleClient.DefaultRootDiskSizeGb (c : GoogleClient) : Int :=
  c.Config.DefaultRootDiskSizeGb

/-- `func (c GoogleClient) DefaultRootDiskType() string`. -/
def GoogleClient.DefaultRootDiskType (c : GoogleClient) : String :=
  c.Config.DefaultRootDiskType

/-- `func (c GoogleClient) ComputeService() *compute.Service`. -/
def GoogleClient.ComputeService (c : GoogleClient) : Option APIService :=
  c.computeService

/-- `func (c GoogleClient) ComputeBetaService() *computebeta.Service`. -/
def GoogleClient.ComputeBetaService (c : GoogleClient) : Option APIService :=
  c.computeServiceB

/-- `func (c GoogleClient) StorageService() *storage.Service`. -/
def GoogleClient.StorageService (c : GoogleClient) : Option APIService :=
  c.storageService

/-- The client value `NewGoogleClient` returns on its success path, as a
function of the configuration and the two freshly acquired base HTTP
clients. -/
def successClient (config : Config) (computeClient0 storageClient0 : HttpClient) :
    GoogleClient :=
  let userAgent := config.GetUserAgent
  let computeClient : HttpClient :=
    ⟨Transport.retry computeClient0.transport retries firstRetrySleep⟩
  let storageClient : HttpClient :=
    ⟨Transport.retry storageClient0.transport retries firstRetrySleep⟩
  ⟨config, some ⟨computeClient, userAgent⟩, some ⟨computeClient, userAgent⟩,
    some ⟨storageClient, userAgent⟩⟩

theorem buildServices_ok (ext : Ext) (config : Config)
    (c0 s0 : HttpClient) (gc : GoogleClient)
    (h : buildServices ext config c0 s0 = (gc, none)) :
    gc = successClient config c0 s0 := by
  simp only [buildServices] at h
  split at h
  · exact absurd (congrArg Prod.snd h) (by simp)
  · split at h
    · exact absurd (congrArg Prod.snd h) (by simp)
    · split at h
      · exact absurd (congrArg Prod.snd h) (by simp)
      · simpa [successClient] using (congrArg Prod.fst h).symm

theorem newGoogleClient_ok (ext : Ext) (config : Config) (env : Env)
    (gc : GoogleClient) (envOut : Env)
    (h : NewGoogleClient ext config env = ((gc, none), envOut)) :
    ∃ c0 s0, acquireCredentials ext config env = (.ok (c0, s0), envOut) ∧
      gc = successClient config c0 s0 := by
  unfold NewGoogleClient at h
  rcases hA : acquireCredentials ext config env with ⟨res, envA⟩
  rw [hA] at h
  match res with
  | .error e =>
    simp only [] at h
    exact absurd (congrArg (fun p => p.1.2) h) (by simp)
  | .ok (c0, s0) =>
    simp only [] at h
    have h1 : buildServices ext config c0 s0 = (gc, none) := by
      have := congrArg Prod.fst h
      simpa using this
    have h2 : envA = envOut := by
      have := congrArg Prod.snd h
      simpa using this
    subst h2
    exact ⟨c0, s0, rfl, buildServices_ok ext config c0 s0 gc h1⟩

theorem buildServices_err (ext : Ext) (config : Config)
    (c0 s0 : HttpClient) (gc : GoogleClient) (e : WrappedError)
    (h : buildServices ext config c0 s0 = (gc, some e)) :
    gc = GoogleClient.zero := by
  simp only [buildServices] at h
  split at h
  · exact (congrArg Prod.fst h).symm
  · split at h
    · exact (congrArg Prod.fst h).symm
    · split at h
      · exact (congrArg Prod.fst h).symm
      · exact absurd (congrArg Prod.snd h) (by simp)

theorem newGoogleClient_decompose (ext : Ext) (config : Config) (env : Env) :
    NewGoogleClient ext config env =
      ((match (acquireCredentials ext config env).1 with
        | .error e => (GoogleClient.zero, some e)
        | .ok (c, s) => buildServices ext config c s),
       (acquireCredentials ext config env).2) := by
  unfold NewGoogleClient
  rcases hA : acquireCredentials ext config env with ⟨res, envA⟩
  cases res <;> rfl

theorem acquire_key_snd (ext : Ext) (config : Config) (env : Env)
    (hk : config.JSONKey ≠ "") :
    (acquireCredentials ext config env).2 = env := by
  simp only [acquireCredentials, if_pos hk]

theorem acquire_key_fst (ext : Ext) (config : Config) (env env' : Env)
    (hk : config.JSONKey ≠ "") :
    (acquireCredentials ext config env).1 = (acquireCredentials ext config env').1 := by
  simp only [acquireCredentials, if_pos hk]

theorem acquire_nokey_snd (ext : Ext) (config : Config) (env : Env)
    (hk : config.JSONKey = "") :
    (acquireCredentials ext config env).2 = metadataEnv env := by
  have : ¬ config.JSONKey ≠ "" := by simp [hk]
  simp only [acquireCredentials, if_neg this]

/-- C1: on every successful construction, `NewGoogleClient` has installed a
`RetryTransport` in front of both authenticated HTTP clients (the compute
one and the storage one), each configured with `retries = 12` retries and
`firstRetrySleep = 50` milliseconds. -/
theorem newGoogleClient_installs_retriers (ext : Ext) (config : Config) (env : Env)
    (gc : GoogleClient) (envOut : Env)
    (h : NewGoogleClient ext config env = ((gc, none), envOut)) :
    ∃ cs ss, gc.ComputeService = some cs ∧ gc.StorageService = some ss ∧
      (∃ b, cs.client.transport = Transport.retry b retries firstRetrySleep) ∧
      (∃ b, ss.client.transport = Transport.retry b retries firstRetrySleep) ∧
      retries = 12 ∧ firstRetrySleep = 50 * Millisecond := by
  obtain ⟨c0, s0, -, hgc⟩ := newGoogleClient_ok ext config env gc envOut h
  subst hgc
  exact ⟨_, _, rfl, rfl, ⟨c0.transport, rfl⟩, ⟨s0.transport, rfl⟩, rfl, rfl⟩

/-- C7: on every successful construction, the user agent obtained from the
configuration is attached to all three produced services (compute v1,
compute beta, and storage all carry `config.GetUserAgent`). -/
theorem newGoogleClient_sets_user_agent (ext : Ext) (config : Config) (env : Env)
    (gc : GoogleClient) (envOut : Env)
    (h : NewGoogleClient ext config env = ((gc, none), envOut)) :
    ∃ cs cb ss, gc.ComputeService = some cs ∧ gc.ComputeBetaService = some cb ∧
      gc.StorageService = some ss ∧ cs.UserAgent = config.GetUserAgent ∧
      cb.UserAgent = config.GetUserAgent ∧ ss.UserAgent = config.GetUserAgent := by
  obtain ⟨c0, s0, -, hgc⟩ := newGoogleClient_ok ext config env gc envOut h
  subst hgc
  exact ⟨_, _, _, rfl, rfl, rfl, rfl, rfl, rfl⟩

/-- C8: for every `GoogleClient` successfully built from a configuration,
the accessors return the configuration values unchanged: `Project`,
`DefaultRootDiskSizeGb` and `DefaultRootDiskType` equal the corresponding
fields of the configuration. -/
theorem googleClient_accessors_return_config (ext : Ext) (config : Config) (env : Env)
    (gc : GoogleClient) (envOut : Env)
    (h : NewGoogleClient ext config env = ((gc, none), envOut)) :
    gc.Project = config.Project ∧
    gc.DefaultRootDiskSizeGb = config.DefaultRootDiskSizeGb ∧
    gc.DefaultRootDiskType = config.DefaultRootDiskType := by
  obtain ⟨c0, s0, -, hgc⟩ := newGoogleClient_ok ext config env gc envOut h
  subst hgc
  exact ⟨rfl, rfl, rfl⟩

/-- C9: on every failure path, `NewGoogleClient` returns the zero value
`GoogleClient{}` together with the non-nil error; a caller never observes
a partially constructed client. -/
theorem newGoogleClient_zero_value_on_error (ext : Ext) (config : Config) (env : Env)
    (gc : GoogleClient) (e : WrappedError) (envOut : Env)
    (h : NewGoogleClient ext config env = ((gc, some e), envOut)) :
    gc = GoogleClient.zero := by
  unfold NewGoogleClient at h
  rcases hA : acquireCredentials ext config env with ⟨res, envA⟩
  rw [hA] at h
  match res with
  | .error e' =>
    simp only [] at h
    have := congrArg (fun p => p.1.1) h
    simpa using this.symm
  | .ok (c0, s0) =>
    simp only [] at h
    have h1 : buildServices ext config c0 s0 = (gc, some e) := by
      have := congrArg Prod.fst h
      simpa using this
    exact buildServices_err ext config c0 s0 gc e h1

/-- C3: `NewGoogleClient` selects the credential path from the key
material: with a non-empty JSON key, both scoped clients come from the
OAuth2 service-account (JWT) flow over that key; with an empty key, both
come from ambient default-credential discovery. -/
theorem newGoogleClient_credential_path (ext : Ext) (config : Config) (env : Env) :
    (∀ cj sj : JwtConf, config.JSONKey ≠ "" →
      ext.JWTConfigFromJSON config.JSONKey computeScope = .ok cj →
      ext.JWTConfigFromJSON config.JSONKey storageScope = .ok sj →
      NewGoogleClient ext config env =
        (buildServices ext config cj.Client sj.Client, env)) ∧
    (∀ cc sc : HttpClient, config.JSONKey = "" →
      ext.DefaultClient (metadataEnv env) computeScope = .ok cc →
      ext.DefaultClient (metadataEnv env) storageScope = .ok sc →
      NewGoogleClient ext config env =
        (buildServices ext config cc sc, metadataEnv env)) := by
  constructor
  · intro cj sj hk hcj hsj
    have hacq : acquireCredentials ext config env = (.ok (cj.Client, sj.Client), env) := by
      simp only [acquireCredentials, if_pos hk, hcj, hsj]
    unfold NewGoogleClient
    rw [hacq]
  · intro cc sc hk hcc hsc
    have hk' : ¬ config.JSONKey ≠ "" := by simp [hk]
    have hacq : acquireCredentials ext config env = (.ok (cc, sc), metadataEnv env) := by
      simp only [acquireCredentials, if_neg hk', hcc, hsc]
    unfold NewGoogleClient
    rw [hacq]

/-- C4: `NewGoogleClient` returns a non-nil error when the JSON key is
malformed (for either the compute or the storage scope) or when default
credential discovery fails; the error wraps the underlying failure and is
surfaced to the caller together with the zero client. -/
theorem newGoogleClient_credential_errors (ext : Ext) (config : Config) (env : Env) :
    (∀ e, config.JSONKey ≠ "" →
      ext.JWTConfigFromJSON config.JSONKey computeScope = .error e →
      (NewGoogleClient ext config env).1 =
        (GoogleClient.zero, some ⟨"Reading Google JSON Key", e⟩)) ∧
    (∀ cj e, config.JSONKey ≠ "" →
      ext.JWTConfigFromJSON config.JSONKey computeScope = .ok cj →
      ext.JWTConfigFromJSON config.JSONKey storageScope = .error e →
      (NewGoogleClient ext config env).1 =
        (GoogleClient.zero, some ⟨"Reading Google JSON Key", e⟩)) ∧
    (∀ e, config.JSONKey = "" →
      ext.DefaultClient (metadataEnv env) computeScope = .error e →
      (NewGoogleClient ext config env).1 =
        (GoogleClient.zero, some ⟨"Creating a Google default client", e⟩)) ∧
    (∀ cc e, config.JSONKey = "" →
      ext.DefaultClient (metadataEnv env) computeScope = .ok cc →
      ext.DefaultClient (metadataEnv env) storageScope = .error e →
      (NewGoogleClient ext config env).1 =
        (GoogleClient.zero, some ⟨"Creating a Google default client", e⟩)) := by
  refine ⟨?_, ?_, ?_, ?_⟩
  · intro e hk hcj
    have hacq : acquireCredentials ext config env =
        (.error ⟨"Reading Google JSON Key", e⟩, env) := by
      simp only [acquireCredentials, if_pos hk, hcj]
    unfold NewGoogleClient
    rw [hacq]
  · intro cj e hk hcj hsj
    have hacq : acquireCredentials ext config env =
        (.error ⟨"Reading Google JSON Key", e⟩, env) := by
      simp only [acquireCredentials, if_pos hk, hcj, hsj]
    unfold NewGoogleClient
    rw [hacq]
  · intro e hk hcc
    have hk' : ¬ config.JSONKey ≠ "" := by simp [hk]
    have hacq : acquireCredentials ext config env =
        (.error ⟨"Creating a Google default client", e⟩, metadataEnv env) := by
      simp only [acquireCredentials, if_neg hk', hcc]
    unfold NewGoogleClient
    rw [hacq]
  · intro cc e hk hcc hsc
    have hk' : ¬ config.JSONKey ≠ "" := by simp [hk]
    have hacq : acquireCredentials ext config env =
        (.error ⟨"Creating a Google default client", e⟩, metadataEnv env) := by
      simp only [acquireCredentials, if_neg hk', hcc, hsc]
    unfold NewGoogleClient
    rw [hacq]

/-- C5: when credential acquisition has succeeded but constructing one of
the service bindings (compute, compute-beta, or storage) fails,
`NewGoogleClient` returns the zero client with an error whose wrap message
differs from both credential-error messages. -/
theorem newGoogleClient_construction_errors (ext : Ext) (config : Config) (env : Env)
    (c0 s0 : HttpClient) (envA : Env)
    (hacq : acquireCredentials ext config env = (.ok (c0, s0), envA)) :
    (∀ e, ext.computeNew ⟨Transport.retry c0.transport retries firstRetrySleep⟩ = some e →
      (NewGoogleClient ext config env).1 =
          (GoogleClient.zero, some ⟨"Creating a Google Compute Service client", e⟩) ∧
        "Creating a Google Compute Service client" ≠ "Reading Google JSON Key" ∧
        "Creating a Google Compute Service client" ≠ "Creating a Google default client") ∧
    (∀ e, ext.computeNew ⟨Transport.retry c0.transport retries firstRetrySleep⟩ = none →
      ext.computeBetaNew ⟨Transport.retry c0.transport retries firstRetrySleep⟩ = some e →
      (NewGoogleClient ext config env).1 =
          (GoogleClient.zero, some ⟨"Creating a Google Compute Service client", e⟩) ∧
        "Creating a Google Compute Service client" ≠ "Reading Google JSON Key" ∧
        "Creating a Google Compute Service client" ≠ "Creating a Google default client") ∧
    (∀ e, ext.computeNew ⟨Transport.retry c0.transport retries firstRetrySleep⟩ = none →
      ext.computeBetaNew ⟨Transport.retry c0.transport retries firstRetrySleep⟩ = none →
      ext.storageNew ⟨Transport.retry s0.transport retries firstRetrySleep⟩ = some e →
      (NewGoogleClient ext config env).1 =
          (GoogleClient.zero, some ⟨"Creating a Google Storage Service client", e⟩) ∧
        "Creating a Google Storage Service client" ≠ "Reading Google JSON Key" ∧
        "Creating a Google Storage Service client" ≠ "Creating a Google default client") := by
  have hng : (NewGoogleClient ext config env).1 = buildServices ext config c0 s0 := by
    unfold NewGoogleClient
    rw [hacq]
  refine ⟨?_, ?_, ?_⟩
  · intro e h1
    refine ⟨?_, by decide, by decide⟩
    rw [hng]
    simp only [buildServices, h1]
  · intro e h1 h2
    refine ⟨?_, by decide, by decide⟩
    rw [hng]
    simp only [buildServices, h1, h2]
  · intro e h1 h2 h3
    refine ⟨?_, by decide, by decide⟩
    rw [hng]
    simp only [buildServices, h1, h2, h3]

/-- C6: with a JSON key supplied, `NewGoogleClient` neither modifies the
environment nor lets it influence the result; with no key, an already-set
`GCE_METADATA_HOST` is left untouched and keeps its value, and only when
it is unset is it fixed to `169.254.169.254`. -/
theorem newGoogleClient_metadata_host_env (ext : Ext) (config : Config) (env : Env) :
    (config.JSONKey ≠ "" →
      (NewGoogleClient ext config env).2 = env ∧
      ∀ env' : Env, (NewGoogleClient ext config env').1 = (NewGoogleClient ext config env).1) ∧
    (config.JSONKey = "" →
      (NewGoogleClient ext config env).2 = metadataEnv env ∧
      (getEnv env "GCE_METADATA_HOST" ≠ "" →
        metadataEnv env = env) ∧
      (getEnv env "GCE_METADATA_HOST" = "" →
        metadataEnv env = setEnv env "GCE_METADATA_HOST" metadataHost ∧
        getEnv (metadataEnv env) "GCE_METADATA_HOST" = metadataHost)) := by
  constructor
  · intro hk
    constructor
    · rw [newGoogleClient_decompose, acquire_key_snd ext config env hk]
    · intro env'
      rw [newGoogleClient_decompose ext config env, newGoogleClient_decompose ext config env',
        acquire_key_fst ext config env' env hk]
  · intro hk
    refine ⟨?_, ?_, ?_⟩
    · rw [newGoogleClient_decompose, acquire_nokey_snd ext config env hk]
    · intro hset
      simp [metadataEnv, hset]
    · intro hunset
      have hm : metadataEnv env = setEnv env "GCE_METADATA_HOST" metadataHost := by
        simp [metadataEnv, hunset]
      refine ⟨hm, ?_⟩
      rw [hm]
      simp [getEnv, setEnv, List.find?]

/-- C10: on success, the compute v1 and compute beta services are built
over one and the same retry-wrapped HTTP client, while the storage service
is built over its own retry-wrapped client; the two retriers wrap the two
acquired base transports, so distinct base transports give distinct
clients. -/
theorem compute_services_share_retry_client (ext : Ext) (config : Config) (env : Env)
    (c0 s0 : HttpClient) (envOut : Env) (gc : GoogleClient)
    (hacq : acquireCredentials ext config env = (.ok (c0, s0), envOut))
    (h : NewGoogleClient ext config env = ((gc, none), envOut)) :
    ∃ cs cb ss, gc.ComputeService = some cs ∧ gc.ComputeBetaService = some cb ∧
      gc.StorageService = some ss ∧ cs.client = cb.client ∧
      cs.client.transport = Transport.retry c0.transport retries firstRetrySleep ∧
      ss.client.transport = Transport.retry s0.transport retries firstRetrySleep ∧
      (c0.transport ≠ s0.transport → cs.client ≠ ss.client) := by
  obtain ⟨c0', s0', hacq', hgc⟩ := newGoogleClient_ok ext config env gc envOut h
  rw [hacq] at hacq'
  have h1 : ((c0, s0) : HttpClient × HttpClient) = (c0', s0') :=
    Except.ok.inj (congrArg Prod.fst hacq')
  have hc1 : c0 = c0' := congrArg Prod.fst h1
  have hc2 : s0 = s0' := congrArg Prod.snd h1
  subst hc1; subst hc2; subst hgc
  refine ⟨_, _, _, rfl, rfl, rfl, rfl, rfl, rfl, ?_⟩
  intro hne hcl
  exact hne (Transport.retry.inj (congrArg HttpClient.transport hcl)).1

/-- Sample external collaborators for concrete evaluation: every call
succeeds and the acquired clients carry distinct base transports. -/
def extOk : Ext where
  JWTConfigFromJSON := fun _ scope =>
    .ok ⟨⟨Transport.base (if scope = computeScope then 0 else 1)⟩⟩
  DefaultClient := fun _ scope =>
    .ok ⟨Transport.base (if scope = computeScope then 2 else 3)⟩
  computeNew := fun _ => none
  computeBetaNew := fun _ => none
  storageNew := fun _ => none

/-- Sample external collaborators whose credential calls fail. -/
def extCredFail : Ext where
  JWTConfigFromJSON := fun _ _ => .error "invalid character"
  DefaultClient := fun _ _ => .error "metadata unreachable"
  computeNew := fun _ => none
  computeBetaNew := fun _ => none
  storageNew := fun _ => none

/-- Sample external collaborators where compute service construction
fails. -/
def extNewFail : Ext where
  JWTConfigFromJSON := fun _ scope =>
    .ok ⟨⟨Transport.base (if scope = computeScope then 0 else 1)⟩⟩
  DefaultClient := fun _ scope =>
    .ok ⟨Transport.base (if scope = computeScope then 2 else 3)⟩
  computeNew := fun _ => some "nil client"
  computeBetaNew := fun _ => none
  storageNew := fun _ => none

/-- Sample configuration carrying a JSON key. -/
def cfgKey : Config := ⟨"my-project", 20, "pd-ssd", "sample-json-key", "bosh-cpi/1.0"⟩

/-- Sample configuration with an empty JSON key. -/
def cfgNoKey : Config := ⟨"my-project", 20, "pd-ssd", "", "bosh-cpi/1.0"⟩

/-- The client that `extOk` and `cfgKey` produce. -/
def gcKey : GoogleClient := successClient cfgKey ⟨Transport.base 0⟩ ⟨Transport.base 1⟩

/-- Witness for C1: the theorem applied at concrete inputs. -/
theorem newGoogleClient_installs_retriers_witness :
    ∃ cs ss, gcKey.ComputeService = some cs ∧ gcKey.StorageService = some ss ∧
      (∃ b, cs.client.transport = Transport.retry b retries firstRetrySleep) ∧
      (∃ b, ss.client.transport = Transport.retry b retries firstRetrySleep) ∧
      retries = 12 ∧ firstRetrySleep = 50 * Millisecond :=
  newGoogleClient_installs_retriers extOk cfgKey [] gcKey [] rfl

/-- Witness for C3: both credential paths at concrete inputs. -/
theorem newGoogleClient_credential_path_witness :
    NewGoogleClient extOk cfgKey [] =
      (buildServices extOk cfgKey ⟨Transport.base 0⟩ ⟨Transport.base 1⟩, []) ∧
    NewGoogleClient extOk cfgNoKey [] =
      (buildServices extOk cfgNoKey ⟨Transport.base 2⟩ ⟨Transport.base 3⟩, metadataEnv []) :=
  ⟨(newGoogleClient_credential_path extOk cfgKey []).1
      ⟨⟨Transport.base 0⟩⟩ ⟨⟨Transport.base 1⟩⟩ (by decide) rfl rfl,
   (newGoogleClient_credential_path extOk cfgNoKey []).2
      ⟨Transport.base 2⟩ ⟨Transport.base 3⟩ rfl rfl rfl⟩

/-- Witness for C4: a malformed key and a failed default discovery at
concrete inputs. -/
theorem newGoogleClient_credential_errors_witness :
    (NewGoogleClient extCredFail cfgKey []).1 =
      (GoogleClient.zero, some ⟨"Reading Google JSON Key", "invalid character"⟩) ∧
    (NewGoogleClient extCredFail cfgNoKey []).1 =
      (GoogleClient.zero, some ⟨"Creating a Google default client", "metadata unreachable"⟩) :=
  ⟨(newGoogleClient_credential_errors extCredFail cfgKey []).1
      "invalid character" (by decide) rfl,
   (newGoogleClient_credential_errors extCredFail cfgNoKey []).2.2.1
      "metadata unreachable" rfl rfl⟩

/-- Witness for C5: a failing compute service constructor at concrete
inputs. -/
theorem newGoogleClient_construction_errors_witness :
    (NewGoogleClient extNewFail cfgKey []).1 =
        (GoogleClient.zero, some ⟨"Creating a Google Compute Service client", "nil client"⟩) ∧
      "Creating a Google Compute Service client" ≠ "Reading Google JSON Key" ∧
      "Creating a Google Compute Service client" ≠ "Creating a Google default client" :=
  (newGoogleClient_construction_errors extNewFail cfgKey []
      ⟨Transport.base 0⟩ ⟨Transport.base 1⟩ [] rfl).1 "nil client" rfl

/-- Witness for C6: a key-carrying configuration leaves a set variable
alone, and the no-key path applies the metadata fixup. -/
theorem newGoogleClient_metadata_host_env_witness :
    (NewGoogleClient extOk cfgKey [("GCE_METADATA_HOST", "10.0.0.1")]).2 =
      [("GCE_METADATA_HOST", "10.0.0.1")] ∧
    (NewGoogleClient extOk cfgNoKey []).2 = metadataEnv [] :=
  ⟨((newGoogleClient_metadata_host_env extOk cfgKey
      [("GCE_METADATA_HOST", "10.0.0.1")]).1 (by decide)).1,
   ((newGoogleClient_metadata_host_env extOk cfgNoKey []).2 rfl).1⟩

/-- Witness for C7: the theorem applied at concrete inputs. -/
theorem newGoogleClient_sets_user_agent_witness :
    ∃ cs cb ss, gcKey.ComputeService = some cs ∧ gcKey.ComputeBetaService = some cb ∧
      gcKey.StorageService = some ss ∧ cs.UserAgent = cfgKey.GetUserAgent ∧
      cb.UserAgent = cfgKey.GetUserAgent ∧ ss.UserAgent = cfgKey.GetUserAgent :=
  newGoogleClient_sets_user_agent extOk cfgKey [] gcKey [] rfl

/-- Witness for C8: the theorem applied at concrete inputs. -/
theorem googleClient_accessors_return_config_witness :
    gcKey.Project = cfgKey.Project ∧
    gcKey.DefaultRootDiskSizeGb = cfgKey.DefaultRootDiskSizeGb ∧
    gcKey.DefaultRootDiskType = cfgKey.DefaultRootDiskType :=
  googleClient_accessors_return_config extOk cfgKey [] gcKey [] rfl

/-- Witness for C9: a failing construction evaluated concretely, and the
theorem applied there. -/
theorem newGoogleClient_zero_value_on_error_witness :
    NewGoogleClient extCredFail cfgKey [] =
      ((GoogleClient.zero, some ⟨"Reading Google JSON Key", "invalid character"⟩), []) ∧
    GoogleClient.zero = GoogleClient.zero :=
  ⟨rfl, newGoogleClient_zero_value_on_error extCredFail cfgKey []
    GoogleClient.zero ⟨"Reading Google JSON Key", "invalid character"⟩ [] rfl⟩

/-- Witness for C10: the theorem applied at concrete inputs. -/
theorem compute_services_share_retry_client_witness :
    ∃ cs cb ss, gcKey.ComputeService = some cs ∧ gcKey.ComputeBetaService = some cb ∧
      gcKey.StorageService = some ss ∧ cs.client = cb.client ∧
      cs.client.transport =
        Transport.retry (HttpClient.mk (Transport.base 0)).transport retries firstRetrySleep ∧
      ss.client.transport =
        Transport.retry (HttpClient.mk (Transport.base 1)).transport retries firstRetrySleep ∧
      ((HttpClient.mk (Transport.base 0)).transport ≠ (HttpClient.mk (Transport.base 1)).transport →
        cs.client ≠ ss.client) :=
  compute_services_share_retry_client extOk cfgKey [] ⟨Transport.base 0⟩ ⟨Transport.base 1⟩
    [] gcKey rfl rfl

end BoshGoogleCPI
